import Mathlib

/-!
Shallow embedding of the tombstone/display/task core of `tiup-cluster`.

Source files embedded:
* `src/cmd/cluster/command/display.go` — `destroyTombstoneIfNeed`,
  `displayClusterTopology`, `formatInstanceStatus`.
* `src/unnamed/part_000` (package `task`) — `InitConfig.Execute`,
  `InitConfig.Rollback`.

External effects (remote SSH calls, metadata persistence, directory creation)
are modelled by explicit environments recording the outcome each external call
would produce, and each modelled function returns, next to its result, the
trace of external effects it performed, so that claims about "what was called
when" are expressible.  Go strings are modelled by Lean `String` (a list of
chars; UTF-8 byte order and codepoint order agree, so Go's bytewise string
comparison is codepoint comparison); `strings.Split`, `strings.TrimSpace` and
`strings.ToLower` are re-implemented structurally below so that all
definitions evaluate in the kernel.
-/

namespace TiupCluster

/-- Error values crossing the modelled boundaries.  `ErrNoExecutor` and
`ErrUnsupportedRollback` are the two distinguished error variables of the
`task` package; every other error (wrapped I/O, SSH or remote errors) is
carried as `other msg`. -/
inductive Err where
  | ErrNoExecutor
  | ErrUnsupportedRollback
  | other (msg : String)
deriving DecidableEq, Repr

/-- A per-host remote executor, reduced to the single capability the embedded
code exercises through it: the raw stdout text produced by
`systemctl status <serviceName>` on that host. -/
structure Executor where
  svcOutput : String → String

/-- `task.Context`: routes a host name to its registered `Executor`
(`GetExecutor` returns the executor and a found-flag, modelled by `Option`). -/
structure Context where
  executors : String → Option Executor

/-- `meta.Instance` restricted to the attributes the embedded code reads.
`status` holds the result of the authoritative `ins.Status(pdList...)` call
(`"-"` is the unresolved sentinel). -/
structure Instance where
  id : String
  role : String
  host : String
  ports : List Int
  status : String
  usedDirs : List String
  serviceName : String
deriving DecidableEq

/-- One component of the topology: its instance list, already in declaration
order. -/
structure Component where
  instances : List Instance

/-- The cluster topology, exposed — as the code consumes it — as the component
list in start order (`ComponentsByStartOrder`). -/
structure Topology where
  componentsByStartOrder : List Component

/-! ### Go string primitives, modelled structurally -/

/-- `unicode.IsSpace` restricted to the scripts Go's `strings.TrimSpace`
strips: ASCII whitespace plus NEL and NBSP. -/
def isGoSpace (c : Char) : Bool :=
  c = ' ' || c = '\t' || c = '\n' || c = '\x0b' || c = '\x0c' || c = '\r' ||
  c = '\u0085' || c = ' '

/-- Go `strings.TrimSpace`: drop leading and trailing whitespace. -/
def trimGo (s : String) : String :=
  ⟨((s.data.dropWhile isGoSpace).reverse.dropWhile isGoSpace).reverse⟩

/-- Core of `strings.Split` for a one-character separator: splitting the empty
string yields `[[]]`, and consecutive separators yield empty fields. -/
def splitChar (sep : Char) : List Char → List (List Char)
  | [] => [[]]
  | c :: cs =>
    if c = sep then [] :: splitChar sep cs
    else
      match splitChar sep cs with
      | [] => [[c]]
      | t :: ts => (c :: t) :: ts

/-- Go `strings.Split s sep` for a one-character separator `sep`. -/
def splitGo (s : String) (sep : Char) : List String :=
  (splitChar sep s.data).map fun l => ⟨l⟩

/-- Go `strings.ToLower` (ASCII case folding, which is all the embedded code
feeds it). -/
def toLowerGo (s : String) : String :=
  ⟨s.data.map Char.toLower⟩

/-- Go's bytewise string comparison `<` on the underlying char lists (UTF-8
byte order equals codepoint order). -/
def ltChars : List Char → List Char → Bool
  | _, [] => false
  | [], _ :: _ => true
  | a :: as, b :: bs =>
    if a < b then true
    else if b < a then false
    else ltChars as bs

/-- Go `a < b` on strings. -/
def strLt (a b : String) : Bool :=
  ltChars a.data b.data

/-- `utils.JoinInt ns delim`: the ports column text. -/
def JoinInt (ns : List Int) (delim : String) : String :=
  String.intercalate delim (ns.map toString)

/-! ### The service-status query -/

/-- Modelled from the spec: `operator.GetServiceStatus` (package
`pkg/operation`, not under `src/`) performs the live process-manager query of
§4.5 — it runs `systemctl status <unit>` through the host's executor and
returns the `Active: ...` line of the status output (its third line), the
"process-manager response" whose second whitespace-separated token is the
running-state word; with fewer than three lines of output (e.g. a failed
remote command producing nothing parseable) it returns the empty string and
an unexpected-output error.  The caller in `display.go` ignores the error
component and consumes only the returned line. -/
def GetServiceStatus (stdout : String) : String × Option Err :=
  let lines := splitGo stdout '\n'
  if 3 ≤ lines.length then (lines.getD 2 "", none)
  else ("", some (.other ("unexpected output: " ++ stdout)))

/-! ### `displayClusterTopology` (src/cmd/cluster/command/display.go) -/

/-- The status-reconciliation parse step of `displayClusterTopology`
(display.go lines 183–189): split the trimmed response on the single space
character; with strictly more than two fields the second field is the state
word, `"active"` normalised to `"Up"`; otherwise `status` is left unchanged. -/
def parseSvcActive (active : String) (status : String) : String :=
  let parts := splitGo (trimGo active) ' '
  if 2 < parts.length then
    if parts.getD 1 "" = "active" then "Up" else parts.getD 1 ""
  else status

/-- The status column of `displayClusterTopology` (lines 177–191): the
authoritative `ins.Status(pdList...)` value, and when that is the `"-"`
sentinel and the host has an executor, the live-query fallback
`parseSvcActive` applied to the `GetServiceStatus` response. -/
def reconcileStatus (ctx : Context) (ins : Instance) : String :=
  let status := ins.status
  if status = "-" then
    match ctx.executors ins.host with
    | some e => parseSvcActive (GetServiceStatus (e.svcOutput ins.serviceName)).1 status
    | none => status
  else status

/-- `formatInstanceStatus` (display.go): the switch on the lowercased status
chooses an ANSI colour; colouring is presentation-only and modelled as the
identity, so every branch returns `status` unchanged. -/
def formatInstanceStatus (status : String) : String :=
  let s := toLowerGo status
  if s = "up" ∨ s = "healthy" then status
  else if s = "healthy|l" then status
  else if s = "offline" ∨ s = "tombstone" ∨ s = "disconnected" then status
  else if s = "down" ∨ s = "unhealthy" ∨ s = "err" then status
  else status

/-- One table row: `[ID, Role, Host, Ports, Status, Data Dir, Deploy Dir]`. -/
abbrev Row := List String

/-- The header row of the cluster table. -/
def header : Row :=
  ["ID", "Role", "Host", "Ports", "Status", "Data Dir", "Deploy Dir"]

/-- The loop body of `displayClusterTopology` for one instance that passed
the filters (lines 170–199): `deployDir := insDirs[0]` is an unguarded index,
so an empty `UsedDirs()` list is an out-of-bounds access, modelled as `none`;
`dataDir` is `insDirs[1]` when the list has more than one entry and the `"-"`
sentinel otherwise.  `color.CyanString` is presentation-only (identity). -/
def instanceRow (ctx : Context) (ins : Instance) : Option Row :=
  match ins.usedDirs with
  | [] => none
  | deployDir :: rest =>
    let dataDir := match rest with | [] => "-" | d :: _ => d
    let status := reconcileStatus ctx ins
    some [ins.id, ins.role, ins.host, JoinInt ins.ports "/",
          formatInstanceStatus status, dataDir, deployDir]

/-- The role/node filter of the display loop: an instance is kept when the
role filter is empty or contains its role, and the node filter is empty or
contains its ID (`set.NewStringSet` membership). -/
def passFilter (roles nodes : List String) (ins : Instance) : Bool :=
  (roles.isEmpty || roles.contains ins.role) &&
  (nodes.isEmpty || nodes.contains ins.id)

/-- The instances the display loop visits: all instances in component start
order, restricted to those passing the filters. -/
def filteredInstances (roles nodes : List String) (topo : Topology) :
    List Instance :=
  (topo.componentsByStartOrder.flatMap Component.instances).filter
    (passFilter roles nodes)

/-- The display loop over a list of instances: collect one row per instance,
aborting (`none`) at the first instance that trips the out-of-bounds
`insDirs[0]` access. -/
def buildRowsAux (ctx : Context) : List Instance → Option (List Row)
  | [] => some []
  | ins :: rest =>
    match instanceRow ctx ins with
    | none => none
    | some r => (buildRowsAux ctx rest).map fun rs => r :: rs

/-- The body rows of the cluster table, in visit order; `none` when any
visited instance trips the out-of-bounds `insDirs[0]` access. -/
def buildRows (ctx : Context) (roles nodes : List String) (topo : Topology) :
    Option (List Row) :=
  buildRowsAux ctx (filteredInstances roles nodes topo)

/-- The column access `row[i]` of the sort comparator; every row the code
builds has seven columns, so the default is never reached. -/
def col (r : Row) (i : Nat) : String := r.getD i ""

/-- The `sort.Slice` comparator over body rows (display.go lines 205–213):
for columns 1 (role) and 2 (host), an unequal pair decides by Go string `<`;
otherwise column 3 (the joined port string) decides. -/
def rowLess (lhs rhs : Row) : Bool :=
  if col lhs 1 ≠ col rhs 1 then strLt (col lhs 1) (col rhs 1)
  else if col lhs 2 ≠ col rhs 2 then strLt (col lhs 2) (col rhs 2)
  else strLt (col lhs 3) (col rhs 3)

/-- The non-strict order induced by the comparator: `a` may precede `b`
exactly when `b` is not strictly before `a`. -/
def rowLE (a b : Row) : Prop := rowLess b a = false

instance : DecidableRel rowLE := fun a b =>
  inferInstanceAs (Decidable (rowLess b a = false))

/-- `sort.Slice clusterTable[1:]` with the comparator above: the sort places
the body rows in some `rowLE`-nondecreasing permutation; modelled by
insertion sort. -/
def sortClusterRows (rows : List Row) : List Row :=
  List.insertionSort rowLE rows

/-- The outcome of a run of `displayClusterTopology`: an error propagated
from metadata loading or SSH setup, a runtime panic (the unguarded
`insDirs[0]` index), or the printed table. -/
inductive DisplayResult where
  | err (e : Err)
  | panic
  | ok (table : List Row)
deriving DecidableEq, Repr

/-- Outcomes of the external calls `displayClusterTopology` makes before its
loop: `meta.ClusterMetadata`, `ctx.SetSSHKeySet`, `ctx.SetClusterSSH` (each
`none` when the call succeeds). -/
structure DisplayEnv where
  metadataErr : Option Err
  sshKeyErr : Option Err
  clusterSSHErr : Option Err

/-- `displayClusterTopology` (display.go lines 132–218): propagate any
metadata/SSH error, then build the body rows over the filtered instances,
sort them with the row comparator keeping the header first, and print the
table.  `ctx` is the context as populated by `SetClusterSSH`. -/
def displayClusterTopology (env : DisplayEnv) (ctx : Context)
    (roles nodes : List String) (topo : Topology) : DisplayResult :=
  match env.metadataErr with
  | some e => .err e
  | none =>
    match env.sshKeyErr with
    | some e => .err e
    | none =>
      match env.clusterSSHErr with
      | some e => .err e
      | none =>
        match buildRows ctx roles nodes topo with
        | none => .panic
        | some rows => .ok (header :: sortClusterRows rows)

/-! ### `destroyTombstoneIfNeed` (display.go lines 92–130) -/

/-- The external calls `destroyTombstoneIfNeed` can make, in the order the
code can make them. -/
inductive TombEff where
  | setSSHKeySet
  | setClusterSSH
  | discoverCall
  | destroyCall
  | saveMeta
deriving DecidableEq, Repr

/-- Outcomes of the external calls of one `destroyTombstoneIfNeed` run:
`operator.NeedCheckTomebsome`, the two SSH-setup calls, the discovery-mode
`DestroyTombstone(ctx, topo, true)` (returning the candidate node list), the
destructive `DestroyTombstone(ctx, topo, false)`, and `SaveClusterMeta`. -/
structure TombstoneEnv where
  needCheck : Bool
  sshKeyErr : Option Err
  clusterSSHErr : Option Err
  discover : Except Err (List String)
  destroy : Except Err (List String)
  saveResult : Option Err

/-- `destroyTombstoneIfNeed`: returns nil unless the topology needs a
tombstone check; sets up SSH; queries candidate nodes (`returnNodesOnly`);
returns nil on an empty candidate set; otherwise runs the destructive
`DestroyTombstone` and, only when it succeeded, saves the cluster metadata.
The second component records the external calls performed. -/
def destroyTombstoneIfNeed (env : TombstoneEnv) :
    Except Err Unit × List TombEff :=
  if !env.needCheck then (.ok (), [])
  else
    match env.sshKeyErr with
    | some e => (.error e, [.setSSHKeySet])
    | none =>
      match env.clusterSSHErr with
      | some e => (.error e, [.setSSHKeySet, .setClusterSSH])
      | none =>
        match env.discover with
        | .error e => (.error e, [.setSSHKeySet, .setClusterSSH, .discoverCall])
        | .ok nodes =>
          if nodes.length = 0 then
            (.ok (), [.setSSHKeySet, .setClusterSSH, .discoverCall])
          else
            match env.destroy with
            | .error e =>
              (.error e,
               [.setSSHKeySet, .setClusterSSH, .discoverCall, .destroyCall])
            | .ok _ =>
              match env.saveResult with
              | some e =>
                (.error e,
                 [.setSSHKeySet, .setClusterSSH, .discoverCall, .destroyCall,
                  .saveMeta])
              | none =>
                (.ok (),
                 [.setSSHKeySet, .setClusterSSH, .discoverCall, .destroyCall,
                  .saveMeta])

/-! ### `InitConfig` (src/unnamed/part_000, package `task`) -/

/-- `meta.DirPaths`: the path set of a deployed instance. -/
structure DirPaths where
  deploy : String
  data : String
  log : String
  cache : String

/-- `task.InitConfig`: copy all configurations to the target directory.
(`inst` models the `instance` field; `instance` is reserved in Lean.) -/
structure InitConfig where
  clusterName : String
  clusterVersion : String
  inst : Instance
  deployUser : String
  paths : DirPaths

/-- The side effects `InitConfig.Execute` can perform, in order:
`os.MkdirAll(paths.Cache)` and the remote `instance.InitConfig`. -/
inductive TaskEff where
  | mkdirCache
  | initConfigRemote
deriving DecidableEq, Repr

/-- Outcomes of the two side-effecting calls of `InitConfig.Execute`
(each `none` when the call succeeds). -/
structure TaskEnv where
  mkdirErr : Option Err
  initConfigErr : Option Err

/-- `InitConfig.Execute`: look up the executor for the instance's host —
returning `ErrNoExecutor` when none is registered — then create the local
cache directory and initialise the remote configuration.  The second
component records the side effects performed. -/
def InitConfig.Execute (c : InitConfig) (ctx : Context) (env : TaskEnv) :
    Except Err Unit × List TaskEff :=
  match ctx.executors c.inst.host with
  | none => (.error .ErrNoExecutor, [])
  | some _ =>
    match env.mkdirErr with
    | some e => (.error e, [.mkdirCache])
    | none =>
      match env.initConfigErr with
      | some e => (.error e, [.mkdirCache, .initConfigRemote])
      | none => (.ok (), [.mkdirCache, .initConfigRemote])

/-- `InitConfig.Rollback`: unconditionally `ErrUnsupportedRollback`. -/
def InitConfig.Rollback (_c : InitConfig) (_ctx : Context) : Except Err Unit :=
  .error .ErrUnsupportedRollback

/-! ### Order theory of the row comparator -/

theorem ltChars_irrefl (l : List Char) : ltChars l l = false := by
  induction l with
  | nil => rfl
  | cons a as ih => simpa [ltChars] using ih

theorem ltChars_asymm : ∀ {a b : List Char},
    ltChars a b = true → ltChars b a = false
  | [], [], h => by simp [ltChars] at h
  | [], _ :: _, _ => rfl
  | _ :: _, [], h => by simp [ltChars] at h
  | x :: xs, y :: ys, h => by
    by_cases hxy : x < y
    · simp [ltChars, hxy, asymm hxy]
    · by_cases hyx : y < x
      · simp [ltChars, hxy, hyx] at h
      · simp only [ltChars, if_neg hxy, if_neg hyx] at h
        simpa only [ltChars, if_neg hyx, if_neg hxy] using ltChars_asymm h

theorem ltChars_trans : ∀ {a b c : List Char},
    ltChars a b = true → ltChars b c = true → ltChars a c = true
  | _, [], _, hab, _ => by simp [ltChars] at hab
  | _, _ :: _, [], _, hbc => by simp [ltChars] at hbc
  | [], _ :: _, _ :: _, _, _ => rfl
  | x :: xs, y :: ys, z :: zs, hab, hbc => by
    by_cases hxy : x < y
    · by_cases hyz : y < z
      · simp [ltChars, lt_trans hxy hyz]
      · by_cases hzy : z < y
        · simp [ltChars, hyz, hzy] at hbc
        · have hyz_eq : y = z := le_antisymm (not_lt.1 hzy) (not_lt.1 hyz)
          rw [← hyz_eq]
          simp [ltChars, hxy]
    · by_cases hyx : y < x
      · simp [ltChars, hxy, hyx] at hab
      · have hxy_eq : x = y := le_antisymm (not_lt.1 hyx) (not_lt.1 hxy)
        simp only [ltChars, if_neg hxy, if_neg hyx] at hab
        by_cases hyz : y < z
        · rw [hxy_eq]
          simp [ltChars, hyz]
        · by_cases hzy : z < y
          · simp [ltChars, hyz, hzy] at hbc
          · have hyz_eq : y = z := le_antisymm (not_lt.1 hzy) (not_lt.1 hyz)
            simp only [ltChars, if_neg hyz, if_neg hzy] at hbc
            have hxz : x = z := hxy_eq.trans hyz_eq
            rw [hxz]
            simpa only [ltChars, if_neg (lt_irrefl z)] using
              ltChars_trans hab hbc

theorem ltChars_conn : ∀ {a b : List Char},
    ltChars a b = false → ltChars b a = false → a = b
  | [], [], _, _ => rfl
  | [], _ :: _, h, _ => by simp [ltChars] at h
  | _ :: _, [], _, h => by simp [ltChars] at h
  | x :: xs, y :: ys, h1, h2 => by
    by_cases hxy : x < y
    · simp [ltChars, hxy] at h1
    · by_cases hyx : y < x
      · simp [ltChars, hyx] at h2
      · have hxy_eq : x = y := le_antisymm (not_lt.1 hyx) (not_lt.1 hxy)
        simp only [ltChars, if_neg hxy, if_neg hyx] at h1
        simp only [ltChars, if_neg hyx, if_neg hxy] at h2
        rw [hxy_eq, ltChars_conn h1 h2]

theorem strLt_irrefl (a : String) : strLt a a = false :=
  ltChars_irrefl a.data

theorem strLt_trans {a b c : String} (h1 : strLt a b = true)
    (h2 : strLt b c = true) : strLt a c = true :=
  ltChars_trans h1 h2

theorem strLt_conn {a b : String} (h1 : strLt a b = false)
    (h2 : strLt b a = false) : a = b := by
  cases a with
  | mk da =>
    cases b with
    | mk db => exact congrArg String.mk (ltChars_conn h1 h2)

/-- The strict lexicographic order on the (role, host, port-string) key that
the comparator `rowLess` decides. -/
def keyLt (a b : Row) : Prop :=
  strLt (col a 1) (col b 1) = true ∨
  (col a 1 = col b 1 ∧
    (strLt (col a 2) (col b 2) = true ∨
      (col a 2 = col b 2 ∧ strLt (col a 3) (col b 3) = true)))

theorem rowLess_iff_keyLt {a b : Row} : rowLess a b = true ↔ keyLt a b := by
  unfold rowLess keyLt
  by_cases h1 : col a 1 = col b 1
  · by_cases h2 : col a 2 = col b 2
    · simp [h1, h2, strLt_irrefl]
    · simp [h1, h2, strLt_irrefl]
  · simp [h1]

theorem keyLt_irrefl (a : Row) : ¬ keyLt a a := by
  simp [keyLt, strLt_irrefl]

theorem keyLt_trans {a b c : Row} (h1 : keyLt a b) (h2 : keyLt b c) :
    keyLt a c := by
  rcases h1 with h1 | ⟨e1, h1⟩
  · rcases h2 with h2 | ⟨e2, h2⟩
    · exact Or.inl (strLt_trans h1 h2)
    · exact Or.inl (by rw [← e2]; exact h1)
  · rcases h2 with h2 | ⟨e2, h2⟩
    · exact Or.inl (by rw [e1]; exact h2)
    · refine Or.inr ⟨e1.trans e2, ?_⟩
      rcases h1 with h1 | ⟨f1, h1⟩
      · rcases h2 with h2 | ⟨f2, h2⟩
        · exact Or.inl (strLt_trans h1 h2)
        · exact Or.inl (by rw [← f2]; exact h1)
      · rcases h2 with h2 | ⟨f2, h2⟩
        · exact Or.inl (by rw [f1]; exact h2)
        · exact Or.inr ⟨f1.trans f2, strLt_trans h1 h2⟩

theorem keyLt_conn {a b : Row} (h1 : ¬ keyLt a b) (h2 : ¬ keyLt b a) :
    col a 1 = col b 1 ∧ col a 2 = col b 2 ∧ col a 3 = col b 3 := by
  by_cases e1 : col a 1 = col b 1
  · by_cases e2 : col a 2 = col b 2
    · refine ⟨e1, e2, ?_⟩
      cases hf : strLt (col a 3) (col b 3) with
      | true => exact absurd (Or.inr ⟨e1, Or.inr ⟨e2, hf⟩⟩) h1
      | false =>
        cases hg : strLt (col b 3) (col a 3) with
        | true => exact absurd (Or.inr ⟨e1.symm, Or.inr ⟨e2.symm, hg⟩⟩) h2
        | false => exact strLt_conn hf hg
    · exfalso
      cases hf : strLt (col a 2) (col b 2) with
      | true => exact h1 (Or.inr ⟨e1, Or.inl hf⟩)
      | false =>
        cases hg : strLt (col b 2) (col a 2) with
        | true => exact h2 (Or.inr ⟨e1.symm, Or.inl hg⟩)
        | false => exact e2 (strLt_conn hf hg)
  · exfalso
    cases hf : strLt (col a 1) (col b 1) with
    | true => exact h1 (Or.inl hf)
    | false =>
      cases hg : strLt (col b 1) (col a 1) with
      | true => exact h2 (Or.inl hg)
      | false => exact e1 (strLt_conn hf hg)

theorem keyLt_congr_right {a b c : Row} (e1 : col a 1 = col b 1)
    (e2 : col a 2 = col b 2) (e3 : col a 3 = col b 3) :
    keyLt c a ↔ keyLt c b := by
  simp [keyLt, e1, e2, e3]

theorem rowLE_total (a b : Row) : rowLE a b ∨ rowLE b a := by
  unfold rowLE
  cases h : rowLess b a with
  | false => exact Or.inl rfl
  | true =>
    refine Or.inr ?_
    cases h2 : rowLess a b with
    | false => rfl
    | true =>
      exact absurd
        (keyLt_trans (rowLess_iff_keyLt.1 h) (rowLess_iff_keyLt.1 h2))
        (keyLt_irrefl b)

theorem rowLE_trans (a b c : Row) (hab : rowLE a b) (hbc : rowLE b c) :
    rowLE a c := by
  unfold rowLE at *
  cases h : rowLess c a with
  | false => rfl
  | true =>
    exfalso
    have hca := rowLess_iff_keyLt.1 h
    have nba : ¬ keyLt b a := fun k => by
      rw [rowLess_iff_keyLt.2 k] at hab
      exact Bool.noConfusion hab
    have ncb : ¬ keyLt c b := fun k => by
      rw [rowLess_iff_keyLt.2 k] at hbc
      exact Bool.noConfusion hbc
    by_cases kab : keyLt a b
    · exact ncb (keyLt_trans hca kab)
    · obtain ⟨e1, e2, e3⟩ := keyLt_conn kab nba
      exact ncb ((keyLt_congr_right e1 e2 e3).1 hca)

instance : IsTotal Row rowLE := ⟨rowLE_total⟩

instance : IsTrans Row rowLE := ⟨rowLE_trans⟩

/-! ### Totality of the display loop -/

theorem instanceRow_isSome {ctx : Context} {ins : Instance} :
    (instanceRow ctx ins).isSome ↔ ins.usedDirs ≠ [] := by
  cases h : ins.usedDirs with
  | nil => simp [instanceRow, h]
  | cons d rest => simp [instanceRow, h]

theorem buildRowsAux_isSome (ctx : Context) (l : List Instance) :
    (buildRowsAux ctx l).isSome ↔ ∀ ins ∈ l, ins.usedDirs ≠ [] := by
  induction l with
  | nil => simp [buildRowsAux]
  | cons ins rest ih =>
    simp only [buildRowsAux, List.forall_mem_cons]
    cases h : instanceRow ctx ins with
    | none =>
      have hnil : ins.usedDirs = [] := by
        by_contra hne
        have := (@instanceRow_isSome ctx ins).2 hne
        rw [h] at this
        simp at this
      simp [hnil]
    | some r =>
      have hne : ins.usedDirs ≠ [] := by
        have := @instanceRow_isSome ctx ins
        rw [h] at this
        exact this.1 (by simp)
      cases hr : buildRowsAux ctx rest with
      | none =>
        rw [hr] at ih
        constructor
        · intro hc
          exact absurd hc (by simp)
        · intro hc
          exact absurd (ih.mpr hc.2) (by simp)
      | some rs =>
        rw [hr] at ih
        simp [hne, ← ih]

/-! ### Concrete fixtures for witnesses -/

/-- An executor whose `systemctl status` output is a healthy three-plus-line
systemd status text whose third line is the `Active:` line. -/
def exeUp : Executor :=
  ⟨fun _ =>
    "● foo.service - foo description\n   Loaded: loaded (/etc/systemd/system/foo.service; disabled; vendor preset: disabled)\n   Active: active (running) since Mon 2020-03-09 13:56:19 CST; 1 weeks 3 days ago"⟩

/-- A context with `exeUp` registered for every host. -/
def ctxUp : Context := ⟨fun _ => some exeUp⟩

/-- A context with no executor registered for any host. -/
def ctxNone : Context := ⟨fun _ => none⟩

/-- A PD instance whose authoritative status is the unresolved sentinel. -/
def insUp : Instance :=
  ⟨"pd-h1-2379", "pd", "h1", [2379, 2380], "-", ["/deploy/pd", "/data/pd"],
   "foo.service"⟩

/-- An instance reporting an empty `UsedDirs()` list. -/
def insNoDirs : Instance :=
  ⟨"tidb-h2-4000", "tidb", "h2", [4000], "-", [], "tidb-4000.service"⟩

/-- A one-instance topology. -/
def topoUp : Topology := ⟨[⟨[insUp]⟩]⟩

/-- A topology containing an instance with an empty directory list. -/
def topoBad : Topology := ⟨[⟨[insUp, insNoDirs]⟩]⟩

/-- A display environment where metadata loading and SSH setup succeed. -/
def envOk : DisplayEnv := ⟨none, none, none⟩

/-- A tombstone run whose destructive phase fails on its single candidate. -/
def envDestroyFail : TombstoneEnv :=
  ⟨true, none, none, .ok ["10.0.1.5:20160"], .error (.other "destroy failed"),
   none⟩

/-- A tombstone run whose discovery yields no candidates. -/
def envNoTombstone : TombstoneEnv :=
  ⟨true, none, none, .ok [], .ok [], none⟩

/-- A concrete `InitConfig` task. -/
def cfgInit : InitConfig :=
  ⟨"test-cluster", "v4.0.0", insUp, "tidb",
   ⟨"/deploy/pd", "/data/pd", "/deploy/pd/log", "/home/tidb/.tiup/cache"⟩⟩

/-! ### Claims -/

/-- C1: in `destroyTombstoneIfNeed` the metadata save (`SaveClusterMeta`) is
invoked only after the destructive `DestroyTombstone` call returned without
error, and in every execution in which the destructive phase fails the
function returns that error and never writes the persisted metadata, so the
stored topology keeps all original instances. -/
theorem destroyTombstone_save_only_after_destroy (env : TombstoneEnv) :
    (TombEff.saveMeta ∈ (destroyTombstoneIfNeed env).2 →
      ∃ ns, env.destroy = .ok ns) ∧
    (∀ e, env.destroy = .error e →
      TombEff.destroyCall ∈ (destroyTombstoneIfNeed env).2 →
      (destroyTombstoneIfNeed env).1 = .error e ∧
        TombEff.saveMeta ∉ (destroyTombstoneIfNeed env).2) := by
  obtain ⟨nc, ske, cse, disc, dest, save⟩ := env
  unfold destroyTombstoneIfNeed
  cases nc with
  | false => simp
  | true =>
    cases ske with
    | some e => simp
    | none =>
      cases cse with
      | some e => simp
      | none =>
        cases disc with
        | error e => simp
        | ok nodes =>
          cases nodes with
          | nil => simp
          | cons n ns =>
            cases dest with
            | error e => simp
            | ok ds =>
              cases save with
              | some e => simp
              | none => simp

/-- C1 witness: a run whose destructive phase fails returns the error and
performs no metadata save. -/
theorem destroyTombstone_save_only_after_destroy_witness :
    (destroyTombstoneIfNeed envDestroyFail).1 = .error (.other "destroy failed") ∧
    TombEff.saveMeta ∉ (destroyTombstoneIfNeed envDestroyFail).2 :=
  (destroyTombstone_save_only_after_destroy envDestroyFail).2
    (.other "destroy failed") rfl (by decide)

/-- C2: whenever discovery runs and yields an empty candidate set,
`destroyTombstoneIfNeed` returns success without issuing the destructive
`DestroyTombstone` call and without saving cluster metadata. -/
theorem destroyTombstone_empty_candidates_noop (env : TombstoneEnv)
    (hd : TombEff.discoverCall ∈ (destroyTombstoneIfNeed env).2)
    (h : env.discover = .ok []) :
    (destroyTombstoneIfNeed env).1 = .ok () ∧
    TombEff.destroyCall ∉ (destroyTombstoneIfNeed env).2 ∧
    TombEff.saveMeta ∉ (destroyTombstoneIfNeed env).2 := by
  obtain ⟨nc, ske, cse, disc, dest, save⟩ := env
  subst h
  unfold destroyTombstoneIfNeed at hd ⊢
  cases nc with
  | false => simp at hd ⊢
  | true =>
    cases ske with
    | some e => simp at hd
    | none =>
      cases cse with
      | some e => simp at hd
      | none => simp

/-- C2 witness: a concrete run with no tombstone candidates is a successful
no-op. -/
theorem destroyTombstone_empty_candidates_noop_witness :
    (destroyTombstoneIfNeed envNoTombstone).1 = .ok () ∧
    TombEff.destroyCall ∉ (destroyTombstoneIfNeed envNoTombstone).2 ∧
    TombEff.saveMeta ∉ (destroyTombstoneIfNeed envNoTombstone).2 :=
  destroyTombstone_empty_candidates_noop envNoTombstone (by decide) rfl

/-- C3: an instance with the `"-"` sentinel whose live query succeeds gets
the second space-separated token of the trimmed response as its state word,
`"active"` normalised to `"Up"` and any other word passed through raw; and
end-to-end, an instance whose query returns the
`"● foo.service - ... Active: active (running)"`-shaped systemd text is
displayed as `"Up"` by `displayClusterTopology`. -/
theorem display_status_fallback_second_token :
    (∀ (ctx : Context) (ins : Instance) (e : Executor),
      ins.status = "-" → ctx.executors ins.host = some e →
      2 < (splitGo (trimGo (GetServiceStatus (e.svcOutput ins.serviceName)).1)
            ' ').length →
      reconcileStatus ctx ins =
        (if (splitGo (trimGo (GetServiceStatus (e.svcOutput ins.serviceName)).1)
              ' ').getD 1 "" = "active"
          then "Up"
          else (splitGo
              (trimGo (GetServiceStatus (e.svcOutput ins.serviceName)).1)
              ' ').getD 1 "")) ∧
    displayClusterTopology envOk ctxUp [] [] topoUp =
      .ok [header,
        ["pd-h1-2379", "pd", "h1", "2379/2380", "Up", "/data/pd", "/deploy/pd"]] := by
  constructor
  · intro ctx ins e hs he hlen
    simp [reconcileStatus, parseSvcActive, hs, he, hlen]
  · decide

/-- C3 witness: the concrete sentinel instance with the live systemd response
reconciles to `"Up"`. -/
theorem display_status_fallback_second_token_witness :
    reconcileStatus ctxUp insUp = "Up" := by
  have h := display_status_fallback_second_token.1 ctxUp insUp exeUp rfl rfl
    (by decide)
  rw [h]
  decide

/-- C4: when the live status query fails — no executor registered for the
host, or the remote command erroring with no parseable output — the status
stays the `"-"` sentinel, and `displayClusterTopology` still returns
success. -/
theorem display_status_query_failure_degrades :
    (∀ (ctx : Context) (ins : Instance), ins.status = "-" →
      ctx.executors ins.host = none → reconcileStatus ctx ins = "-") ∧
    (∀ (ctx : Context) (ins : Instance) (e : Executor) (msg : Err),
      ins.status = "-" → ctx.executors ins.host = some e →
      GetServiceStatus (e.svcOutput ins.serviceName) = ("", some msg) →
      reconcileStatus ctx ins = "-") ∧
    (∀ (env : DisplayEnv) (ctx : Context) (roles nodes : List String)
        (topo : Topology),
      env.metadataErr = none → env.sshKeyErr = none →
      env.clusterSSHErr = none →
      (∀ ins ∈ filteredInstances roles nodes topo, ins.usedDirs ≠ []) →
      ∃ t, displayClusterTopology env ctx roles nodes topo = .ok t) := by
  refine ⟨?_, ?_, ?_⟩
  · intro ctx ins hs he
    simp [reconcileStatus, hs, he]
  · intro ctx ins e msg hs he hg
    simp only [reconcileStatus, hs, he, hg]
    decide
  · intro env ctx roles nodes topo h1 h2 h3 hall
    obtain ⟨v, hv⟩ := Option.isSome_iff_exists.1
      ((buildRowsAux_isSome ctx (filteredInstances roles nodes topo)).2 hall)
    exact ⟨header :: sortClusterRows v,
      by simp [displayClusterTopology, buildRows, h1, h2, h3, hv]⟩

/-- C4 witness: with no executor the sentinel survives and the display of a
well-formed topology succeeds. -/
theorem display_status_query_failure_degrades_witness :
    reconcileStatus ctxNone insUp = "-" ∧
    ∃ t, displayClusterTopology envOk ctxNone [] [] topoUp = .ok t :=
  ⟨display_status_query_failure_degrades.1 ctxNone insUp rfl rfl,
   display_status_query_failure_degrades.2.2 envOk ctxNone [] [] topoUp
     rfl rfl rfl (by decide)⟩

/-- C5: the displayed table keeps the header as its first row while the body
rows are a permutation of the built rows sorted ascending by role, then
host, then the joined port string; on the example rows the order is
coord/h1, worker/h1, worker/h2. -/
theorem display_table_sorted :
    (∀ (env : DisplayEnv) (ctx : Context) (roles nodes : List String)
        (topo : Topology) (rows : List Row),
      env.metadataErr = none → env.sshKeyErr = none →
      env.clusterSSHErr = none →
      buildRows ctx roles nodes topo = some rows →
      displayClusterTopology env ctx roles nodes topo =
          .ok (header :: sortClusterRows rows) ∧
        List.Sorted rowLE (sortClusterRows rows) ∧
        List.Perm (sortClusterRows rows) rows) ∧
    sortClusterRows
        [["id-w2", "worker", "h2", "4000", "-", "-", "/d"],
         ["id-w1", "worker", "h1", "3000", "-", "-", "/d"],
         ["id-c", "coord", "h1", "2000", "-", "-", "/d"]] =
      [["id-c", "coord", "h1", "2000", "-", "-", "/d"],
       ["id-w1", "worker", "h1", "3000", "-", "-", "/d"],
       ["id-w2", "worker", "h2", "4000", "-", "-", "/d"]] := by
  constructor
  · intro env ctx roles nodes topo rows h1 h2 h3 hb
    refine ⟨by simp [displayClusterTopology, h1, h2, h3, hb], ?_, ?_⟩
    · exact List.sorted_insertionSort rowLE rows
    · exact List.perm_insertionSort rowLE rows
  · decide

/-- C5 witness: the display of a concrete topology produces the header
followed by the sorted body rows. -/
theorem display_table_sorted_witness :
    displayClusterTopology envOk ctxNone [] [] topoUp =
        .ok (header :: sortClusterRows
          [["pd-h1-2379", "pd", "h1", "2379/2380", "-", "/data/pd",
            "/deploy/pd"]]) ∧
      List.Sorted rowLE (sortClusterRows
        [["pd-h1-2379", "pd", "h1", "2379/2380", "-", "/data/pd",
          "/deploy/pd"]]) ∧
      List.Perm (sortClusterRows
          [["pd-h1-2379", "pd", "h1", "2379/2380", "-", "/data/pd",
            "/deploy/pd"]])
        [["pd-h1-2379", "pd", "h1", "2379/2380", "-", "/data/pd",
          "/deploy/pd"]] :=
  display_table_sorted.1 envOk ctxNone [] [] topoUp
    [["pd-h1-2379", "pd", "h1", "2379/2380", "-", "/data/pd", "/deploy/pd"]]
    rfl rfl rfl (by decide)

/-- C6: `InitConfig.Rollback` returns `ErrUnsupportedRollback` for every
context: it never returns nil and its result does not depend on the
context's state. -/
theorem initConfig_rollback_unsupported (c : InitConfig) (ctx : Context) :
    InitConfig.Rollback c ctx = .error .ErrUnsupportedRollback ∧
    InitConfig.Rollback c ctx ≠ .ok () ∧
    ∀ ctx2 : Context, InitConfig.Rollback c ctx = InitConfig.Rollback c ctx2 := by
  refine ⟨rfl, ?_, fun _ => rfl⟩
  intro h
  exact Except.noConfusion h

/-- C6 witness: the rollback of a concrete task errors with
`ErrUnsupportedRollback`. -/
theorem initConfig_rollback_unsupported_witness :
    InitConfig.Rollback cfgInit ctxNone = .error .ErrUnsupportedRollback :=
  (initConfig_rollback_unsupported cfgInit ctxNone).1

/-- C7: when no executor is registered for the task instance's host,
`InitConfig.Execute` returns `ErrNoExecutor` before performing any side
effect — no directory creation and no remote config initialisation. -/
theorem initConfig_execute_no_executor (c : InitConfig) (ctx : Context)
    (env : TaskEnv) (h : ctx.executors c.inst.host = none) :
    InitConfig.Execute c ctx env = (.error .ErrNoExecutor, []) := by
  simp [InitConfig.Execute, h]

/-- C7 witness: a concrete task against an executor-less context fails with
`ErrNoExecutor` and an empty effect trace. -/
theorem initConfig_execute_no_executor_witness :
    InitConfig.Execute cfgInit ctxNone ⟨none, none⟩ =
      (.error .ErrNoExecutor, []) :=
  initConfig_execute_no_executor cfgInit ctxNone ⟨none, none⟩ rfl

/-- C8: for every displayed instance the Deploy Dir column is the first
element of `UsedDirs()` and the Data Dir column is its second element when
the list has more than one entry, otherwise the `"-"` sentinel. -/
theorem display_dir_columns (ctx : Context) (ins : Instance)
    (h : ins.usedDirs ≠ []) :
    ∃ row, instanceRow ctx ins = some row ∧
      col row 6 = ins.usedDirs.getD 0 "" ∧
      col row 5 =
        if 1 < ins.usedDirs.length then ins.usedDirs.getD 1 "" else "-" := by
  cases hd : ins.usedDirs with
  | nil => exact absurd hd h
  | cons d rest =>
    cases rest with
    | nil =>
      refine ⟨[ins.id, ins.role, ins.host, JoinInt ins.ports "/",
        formatInstanceStatus (reconcileStatus ctx ins), "-", d],
        ?_, by simp [col], by simp [col, hd]⟩
      simp [instanceRow, hd]
    | cons d2 r2 =>
      refine ⟨[ins.id, ins.role, ins.host, JoinInt ins.ports "/",
        formatInstanceStatus (reconcileStatus ctx ins), d2, d],
        ?_, by simp [col], by simp [col, hd]⟩
      simp [instanceRow, hd]

/-- C8 witness: the concrete instance's row carries its deploy and data
directories in the last two columns. -/
theorem display_dir_columns_witness :
    ∃ row, instanceRow ctxNone insUp = some row ∧
      col row 6 = insUp.usedDirs.getD 0 "" ∧
      col row 5 =
        if 1 < insUp.usedDirs.length then insUp.usedDirs.getD 1 "" else "-" :=
  display_dir_columns ctxNone insUp (by decide)

/-- C9: the display loop indexes `UsedDirs()[0]` with no emptiness guard:
the run is total (never panics) exactly when every instance passing the
filters reports a non-empty directory list, and the index access is out of
bounds — a panic — otherwise. -/
theorem display_unguarded_dirs_index (env : DisplayEnv) (ctx : Context)
    (roles nodes : List String) (topo : Topology)
    (h1 : env.metadataErr = none) (h2 : env.sshKeyErr = none)
    (h3 : env.clusterSSHErr = none) :
    (displayClusterTopology env ctx roles nodes topo = .panic ↔
      ∃ ins ∈ filteredInstances roles nodes topo, ins.usedDirs = []) ∧
    ∀ ins : Instance, (instanceRow ctx ins).isSome ↔ ins.usedDirs ≠ [] := by
  refine ⟨?_, fun ins => instanceRow_isSome⟩
  have hb := buildRowsAux_isSome ctx (filteredInstances roles nodes topo)
  have hd : displayClusterTopology env ctx roles nodes topo = .panic ↔
      buildRowsAux ctx (filteredInstances roles nodes topo) = none := by
    cases hbr : buildRowsAux ctx (filteredInstances roles nodes topo) with
    | none => simp [displayClusterTopology, buildRows, h1, h2, h3, hbr]
    | some v => simp [displayClusterTopology, buildRows, h1, h2, h3, hbr]
  rw [hd]
  constructor
  · intro hn
    by_contra hc
    push_neg at hc
    have hs := hb.2 hc
    rw [hn] at hs
    simp at hs
  · rintro ⟨ins, hm, hnil⟩
    cases hbr : buildRowsAux ctx (filteredInstances roles nodes topo) with
    | none => rfl
    | some v => exact absurd hnil (hb.1 (by rw [hbr]; simp) ins hm)

/-- C9 witness: a topology containing an empty-directory instance makes the
display panic. -/
theorem display_unguarded_dirs_index_witness :
    displayClusterTopology envOk ctxNone [] [] topoBad = .panic :=
  (display_unguarded_dirs_index envOk ctxNone [] [] topoBad rfl rfl rfl).1.mpr
    ⟨insNoDirs, by decide, rfl⟩

/-- C10: the live-status parse splits the trimmed response on the single
space character and assigns a status only with strictly more than two
fields: two or fewer space-separated tokens leave the status unchanged
(tab-separated text counts as one token), and consecutive spaces produce
empty fields, so the assigned state word can be the empty string. -/
theorem parse_active_split_single_space :
    (∀ active status : String,
      (splitGo (trimGo active) ' ').length ≤ 2 →
      parseSvcActive active status = status) ∧
    parseSvcActive "Active: active" "-" = "-" ∧
    parseSvcActive "Active:\tactive\t(running)" "-" = "-" ∧
    parseSvcActive "Active:  active (running)" "-" = "" := by
  refine ⟨?_, by decide, by decide, by decide⟩
  intro active status h
  have hn : ¬ 2 < (splitGo (trimGo active) ' ').length := not_lt.2 h
  simp [parseSvcActive, hn]

/-- C10 witness: a two-token response leaves the incoming status value
untouched. -/
theorem parse_active_split_single_space_witness :
    parseSvcActive "a b" "x" = "x" :=
  parse_active_split_single_space.1 "a b" "x" (by decide)

end TiupCluster
